import Mathlib

/-!
# Verification of the email-service queue/worker/API core

Shallow embedding of the Python email service:
* `models/email.py` — `EmailType`, `EmailStatus`, `EmailRecord` (pydantic validation)
* `clients/smtp.py` — `SMTPClient._is_transient_error`
* `database/queue.py` — `EmailQueueManager.get_pending_emails`, `update_email_status`
* `worker/processor.py` — `EmailWorker._handle_send_failure`, `_process_email`,
  `_prepare_email_content`
* `api/main.py` — `verify_api_key`, `RateLimiter.is_allowed`, `check_rate_limit`,
  `health_check`, `send_email` message-id selection

Pure functions are translated directly; the rate limiter's mutable per-client
timestamp list is threaded as explicit state.
-/

namespace EmailService

/-! ## Email types and statuses (`models/email.py`) -/

/-- `EmailType` enumeration from `models/email.py` (eight members). -/
inductive EmailType where
  | transactional
  | booking_created
  | booking_cancelled
  | booking_rescheduled
  | reminder_24h
  | reminder_1h
  | reminder_custom
  | otp_verification
deriving DecidableEq, Repr

/-- The string `value` of each `EmailType` member. -/
def EmailType.value : EmailType → String
  | .transactional => "transactional"
  | .booking_created => "booking_created"
  | .booking_cancelled => "booking_cancelled"
  | .booking_rescheduled => "booking_rescheduled"
  | .reminder_24h => "reminder_24h"
  | .reminder_1h => "reminder_1h"
  | .reminder_custom => "reminder_custom"
  | .otp_verification => "otp_verification"

/-- `EmailType(s)`: the enum constructor applied to a string; `none` models the
`ValueError` raised for a string that is not one of the eight values. -/
def emailTypeOfString (s : String) : Option EmailType :=
  if s = "transactional" then some .transactional
  else if s = "booking_created" then some .booking_created
  else if s = "booking_cancelled" then some .booking_cancelled
  else if s = "booking_rescheduled" then some .booking_rescheduled
  else if s = "reminder_24h" then some .reminder_24h
  else if s = "reminder_1h" then some .reminder_1h
  else if s = "reminder_custom" then some .reminder_custom
  else if s = "otp_verification" then some .otp_verification
  else none

/-- `EmailStatus` enumeration from `models/email.py`. -/
inductive EmailStatus where
  | pending
  | scheduled
  | processing
  | sent
  | failed
deriving DecidableEq, Repr

/-- `EmailStatus(s)` applied to a string; `none` models the `ValueError`. -/
def emailStatusOfString (s : String) : Option EmailStatus :=
  if s = "pending" then some .pending
  else if s = "scheduled" then some .scheduled
  else if s = "processing" then some .processing
  else if s = "sent" then some .sent
  else if s = "failed" then some .failed
  else none

/-- Template-context JSON object, modelled as an association list. -/
abbrev TemplateContext := List (String × String)

/-- `EmailRecord` from `models/email.py`, restricted to the fields the worker
and queue logic read. `type` is an `EmailType` (pydantic validates it). -/
structure EmailRecord where
  id : Nat
  type : EmailType
  recipient_email : String
  recipient_name : Option String
  subject : String
  body_html : String
  body_text : Option String
  status : EmailStatus
  retry_count : Nat
  max_retries : Nat
  last_error : Option String
  next_retry_at : Option Nat
  sent_at : Option Nat
  priority : Nat
  template_context : Option TemplateContext
deriving DecidableEq, Repr

/-- A raw database row as returned by the SQL `get_pending_emails` function,
before pydantic validation turns it into an `EmailRecord`. -/
structure RawEmailRow where
  id : Nat
  email_type : String
  recipient_email : String
  recipient_name : Option String
  subject : String
  body_html : String
  body_text : Option String
  status : String
  retry_count : Nat
  max_retries : Nat
  last_error : Option String
  next_retry_at : Option Nat
  sent_at : Option Nat
  priority : Nat
  template_context : Option TemplateContext
deriving DecidableEq, Repr

/-- `EmailRecord(**row_dict)`: pydantic validation of one row
(`models/email.py`). An unknown `email_type` or `status` string, an
out-of-range `max_retries` (`ge=1, le=10`) or `priority` (`ge=1, le=10`), or a
too-long `subject` (`max_length=500`) raises a validation error. -/
def parseEmailRecord (row : RawEmailRow) : Except String EmailRecord :=
  match emailTypeOfString row.email_type with
  | none => .error ("validation error for EmailRecord: email_type " ++ row.email_type)
  | some t =>
    match emailStatusOfString row.status with
    | none => .error ("validation error for EmailRecord: status " ++ row.status)
    | some st =>
      if 500 < row.subject.length then
        .error "validation error for EmailRecord: subject"
      else if row.max_retries < 1 ∨ 10 < row.max_retries then
        .error "validation error for EmailRecord: max_retries"
      else if row.priority < 1 ∨ 10 < row.priority then
        .error "validation error for EmailRecord: priority"
      else
        .ok { id := row.id, type := t, recipient_email := row.recipient_email,
              recipient_name := row.recipient_name, subject := row.subject,
              body_html := row.body_html, body_text := row.body_text,
              status := st, retry_count := row.retry_count,
              max_retries := row.max_retries, last_error := row.last_error,
              next_retry_at := row.next_retry_at, sent_at := row.sent_at,
              priority := row.priority,
              template_context := row.template_context }

/-! ## Queue manager (`database/queue.py`) -/

/-- The clamp in `EmailQueueManager.get_pending_emails`:
`limit = min(max(limit, 1), 1000)`. -/
def clampLimit (limit : Int) : Int := min (max limit 1) 1000

/-- The row-conversion loop of `get_pending_emails`: each row is validated into
an `EmailRecord`; the first validation failure aborts the whole call (the
exception is re-raised as `EmailQueueError`). -/
def parseRows : List RawEmailRow → Except String (List EmailRecord)
  | [] => .ok []
  | r :: rs =>
    match parseEmailRecord r with
    | .error e => .error e
    | .ok rec =>
      match parseRows rs with
      | .error e => .error e
      | .ok recs => .ok (rec :: recs)

/-- `EmailQueueManager.get_pending_emails(limit)`. The SQL function is
abstracted as `store`, mapping the requested row count to the leased rows. -/
def get_pending_emails (store : Int → List RawEmailRow) (limit : Int) :
    Except String (List EmailRecord) :=
  parseRows (store (clampLimit limit))

/-! ## Transient error classification (`clients/smtp.py`) -/

/-- The keyword list of `SMTPClient._is_transient_error`. -/
def transient_keywords : List String :=
  ["timeout", "connection", "temporarily", "try again", "unavailable",
   "service", "refused", "reset", "broken pipe"]

/-- Python substring containment `needle in hay`. -/
def containsSubstring (hay needle : String) : Bool :=
  decide (needle.toList <:+: hay.toList)

/-- Python `str.lower()`, character-wise case mapping (the error texts and
keywords involved are ASCII). -/
def pyLower (s : String) : String := String.mk (s.data.map Char.toLower)

/-- `SMTPClient._is_transient_error`: lowercase the error text and test the
nine keywords for substring containment. -/
def is_transient_error (errorStr : String) : Bool :=
  transient_keywords.any (fun keyword => containsSubstring (pyLower errorStr) keyword)

/-! ## SQL status update (not under `src/`; see §6.3 of the spec) -/

/-- Python string slicing `e[:500]` on the error message. -/
def truncate500 (s : String) : String := String.mk (s.data.take 500)

/-- Modelled from the spec: the SQL function `update_email_status(id, status,
error, sent_at)` of §6.3, whose body (DDL) is not part of `src/`;
`EmailQueueManager.update_email_status` forwards its arguments to it
unchanged. Per §4.2, `mark_failed(id, error)` stores the error truncated to
500 characters; a `None` argument leaves the stored field unchanged. -/
def sql_update_email_status (row : EmailRecord) (status : EmailStatus)
    (error : Option String) (sentAt : Option Nat) : EmailRecord :=
  { row with
    status := status,
    last_error := match error with
      | some e => some (truncate500 e)
      | none => row.last_error,
    sent_at := match sentAt with
      | some t => some t
      | none => row.sent_at }

/-- The worker's `mark_failed` path (`_handle_send_failure`, else branch):
`update_email_status(email.id, EmailStatus.FAILED, error=error)`, which the
queue manager forwards to the SQL `update_email_status`. -/
def mark_failed (row : EmailRecord) (error : String) : EmailRecord :=
  sql_update_email_status row .failed (some error) none

/-! ## Worker delivery logic (`worker/processor.py`) -/

/-- The queue-store mutation chosen by `EmailWorker._handle_send_failure`:
either `queue_manager.retry_email(id, error, backoff_seconds)` or
`queue_manager.update_email_status(id, EmailStatus.FAILED, error=error)`. -/
inductive FailureAction where
  | scheduleRetry (error : String) (backoffSeconds : Nat)
  | markFailed (error : String)
deriving DecidableEq, Repr

/-- Worker statistics counters (`processed_count`, `retry_count`,
`failed_count` on `EmailWorker`). -/
structure WorkerCounters where
  processed : Nat := 0
  retried : Nat := 0
  failed : Nat := 0
deriving DecidableEq, Repr

/-- `EmailWorker._handle_send_failure(email, error)`: schedule a retry when
`email.retry_count < email.max_retries` (incrementing the retry counter),
otherwise mark the row failed (incrementing the failed counter). The error is
received as a plain string (`str(e)`); no transience information reaches this
function. -/
def handle_send_failure (email : EmailRecord) (error : String)
    (backoffSeconds : Nat) (c : WorkerCounters) : FailureAction × WorkerCounters :=
  if email.retry_count < email.max_retries then
    (.scheduleRetry error backoffSeconds, { c with retried := c.retried + 1 })
  else
    (.markFailed error, { c with failed := c.failed + 1 })

/-- Python truthiness of `email.template_context`: `None` and the empty dict
are falsy. -/
def ctxTruthy : Option TemplateContext → Bool
  | none => false
  | some l => !l.isEmpty

/-- Outcome of the renderer calls in `_prepare_email_content`
(`render_html` then `render_text`); `error` models a raised
`TemplateRenderError` (for example a missing HTML template). -/
inductive RenderResult where
  | ok (html : String) (text : String)
  | error (message : String)
deriving DecidableEq, Repr

/-- Outcome of `smtp_client.send_email`; `error` models a raised exception
whose text is `message`. -/
inductive SendResult where
  | ok
  | error (message : String)
deriving DecidableEq, Repr

/-- `EmailWorker._prepare_email_content(email)`: render via the templates when
`template_context` is truthy (a raised `TemplateRenderError` propagates),
otherwise use the pre-rendered `body_html`/`body_text`. -/
def prepare_email_content (email : EmailRecord) (render : RenderResult) :
    Except String (String × Option String) :=
  if ctxTruthy email.template_context then
    match render with
    | .ok html text => .ok (html, some text)
    | .error msg => .error msg
  else
    .ok (email.body_html, email.body_text)

/-- Result of `EmailWorker._process_email(email)`: on success the row is
marked sent; on any exception (template rendering included) the row is
finalized by `_handle_send_failure`. -/
inductive ProcessOutcome where
  | markSent
  | finalized (action : FailureAction)
deriving DecidableEq, Repr

/-- `EmailWorker._process_email(email)`: prepare the content (template
rendering may fail), send via SMTP, mark sent on success; every exception is
caught by the single `except` block and handed to `_handle_send_failure`
as a string. -/
def process_email (email : EmailRecord) (render : RenderResult)
    (send : SendResult) (backoffSeconds : Nat) (c : WorkerCounters) :
    ProcessOutcome × WorkerCounters :=
  match prepare_email_content email render with
  | .error msg =>
    let r := handle_send_failure email msg backoffSeconds c
    (.finalized r.fst, r.snd)
  | .ok _ =>
    match send with
    | .ok => (.markSent, c)
    | .error msg =>
      let r := handle_send_failure email msg backoffSeconds c
      (.finalized r.fst, r.snd)

/-- The `try/except ValueError` coercion in `_prepare_email_content` (M002
fix): `EmailType(t)` with unknown strings defaulting to `TRANSACTIONAL`. -/
def coerce_email_type (t : String) : EmailType :=
  (emailTypeOfString t).getD .transactional

/-! ## Ingress edge (`api/main.py`) -/

/-- `TEMPLATE_TYPE_MAP` from `api/main.py` (six entries). -/
def template_type_map : List (String × EmailType) :=
  [("otp_verification", .otp_verification),
   ("booking_created", .booking_created),
   ("booking_cancelled", .booking_cancelled),
   ("booking_rescheduled", .booking_rescheduled),
   ("reminder_24h", .reminder_24h),
   ("reminder_1h", .reminder_1h)]

/-- The email-type selection in `send_email`: `TRANSACTIONAL` unless a truthy
`template_id` is present, in which case `TEMPLATE_TYPE_MAP.get(template_id,
TRANSACTIONAL)`. -/
def email_type_for_template_id : Option String → EmailType
  | none => .transactional
  | some tid =>
    if tid = "" then .transactional
    else (template_type_map.lookup tid).getD .transactional

/-- The message-id selection in `send_email`:
`message_id = request.client_message_id or str(uuid.uuid4())`. Python `or`
falls through to the generated UUID when `client_message_id` is `None` or the
empty string (both falsy). -/
def message_id_for (clientMessageId : Option String) (generatedUuid : String) :
    String :=
  match clientMessageId with
  | some s => if s = "" then generatedUuid else s
  | none => generatedUuid

/-- Result of the `verify_api_key` dependency: pass, or an `HTTPException`
with a status code and detail message. -/
inductive AuthResult where
  | ok
  | unauthorized (statusCode : Nat) (detail : String)
deriving DecidableEq, Repr

/-- `verify_api_key(api_key, config)` from `api/main.py`. `configuredKey` is
`getattr(config, "API_KEY", None)`; `apiKey` is the `X-API-Key` header value
(`None` when absent). Python truthiness is modelled via `getD ""`;
`secrets.compare_digest` on strings decides equality (in constant time). -/
def verify_api_key (configuredKey : Option String) (apiKey : Option String) :
    AuthResult :=
  let ck := configuredKey.getD ""
  if ck = "" then .ok
  else
    let k := apiKey.getD ""
    if k = "" then .unauthorized 401 "API key required"
    else if k = ck then .ok
    else .unauthorized 401 "Invalid API key"

/-- The body of the `health_check` endpoint. `dbOk` is the result of
`queue_manager.health_check()` (a raised exception leaves `db_status` at
`"error"`); `smtpConfigOk` is whether `config.validate_smtp_config()`
succeeds. The HTTP status is 503 when the overall status is not `"ok"`,
otherwise 200. -/
structure HealthReply where
  status : String
  db : String
  email_provider : String
  httpStatus : Nat
deriving DecidableEq, Repr

/-- `health_check` from `api/main.py`. -/
def health_check (dbOk : Bool) (smtpConfigOk : Bool) : HealthReply :=
  let db_status := if dbOk then "ok" else "error"
  let smtp_status := if smtpConfigOk then "ok" else "not_configured"
  let overall_status := if db_status = "ok" then "ok" else "degraded"
  { status := overall_status,
    db := db_status,
    email_provider := smtp_status,
    httpStatus := if overall_status ≠ "ok" then 503 else 200 }

/-! ## Rate limiter (`api/main.py`, `RateLimiter` and `check_rate_limit`)

Timestamps (`time.time()`) are modelled as rationals; the per-client list
`_requests[client_id]` is threaded explicitly. -/

/-- `RateLimiter` state for a single client: the two budgets and the
timestamp list `_requests[client_id]`. -/
structure RateLimiter where
  requestsPerMinute : Nat := 60
  requestsPerSecond : Nat := 10
  requests : List ℚ := []

/-- `RateLimiter._clean_old_requests`: keep timestamps with
`now - t < window_seconds`. -/
def cleanOldRequests (reqs : List ℚ) (now : ℚ) (windowSeconds : ℚ) : List ℚ :=
  reqs.filter (fun t => decide (now - t < windowSeconds))

/-- `RateLimiter.is_allowed(client_id)`: clean entries older than 60 s, refuse
when the last-second count has reached `requests_per_second` or the cleaned
list has reached `requests_per_minute`, otherwise record the request. Returns
the decision and the updated timestamp list. -/
def is_allowed (rl : RateLimiter) (now : ℚ) : Bool × RateLimiter :=
  let cleaned := cleanOldRequests rl.requests now 60
  let recentSecond := cleaned.filter (fun t => decide (now - t < 1))
  if rl.requestsPerSecond ≤ recentSecond.length then
    (false, { rl with requests := cleaned })
  else if rl.requestsPerMinute ≤ cleaned.length then
    (false, { rl with requests := cleaned })
  else
    (true, { rl with requests := cleaned ++ [now] })

/-- Decision of the `check_rate_limit` dependency: pass, or an
`HTTPException(429)` carrying the `Retry-After` header value. -/
inductive RateDecision where
  | allowed
  | tooManyRequests (retryAfterSeconds : Nat)
deriving DecidableEq, Repr

/-- `check_rate_limit(request)` from `api/main.py`: requests whose path is
`/health` bypass the limiter entirely; otherwise the limiter decides and a
refusal is surfaced as 429 with `Retry-After: 60`. -/
def check_rate_limit (path : String) (rl : RateLimiter) (now : ℚ) :
    RateDecision × RateLimiter :=
  if path = "/health" then (.allowed, rl)
  else
    let r := is_allowed rl now
    if r.fst then (.allowed, r.snd) else (.tooManyRequests 60, r.snd)

/-- The accepted-request timestamps produced by feeding a chronological
sequence of requests from one client through `is_allowed`. -/
def acceptedTimes (rl : RateLimiter) : List ℚ → List ℚ
  | [] => []
  | t :: ts =>
    let r := is_allowed rl t
    if r.fst then t :: acceptedTimes r.snd ts else acceptedTimes r.snd ts

/-- Bound on the accepted timestamps preceding any accepted timestamp `u`
within `width` seconds of `u` (one condition per split of the accepted
list): the key invariant maintained by `is_allowed`. -/
def splitBound (bound : Nat) (width : ℚ) (accepted : List ℚ) : Prop :=
  ∀ pre u post, accepted = pre ++ u :: post →
    (pre.filter (fun v => decide (u - v < width))).length < bound

/-! ## Concrete instances used by counterexamples and witnesses -/

/-- A leased row with the given retry counters and template context. -/
def sampleEmail (retryCount maxRetries : Nat) (ctx : Option TemplateContext) :
    EmailRecord :=
  { id := 1, type := .transactional, recipient_email := "a@x.io",
    recipient_name := none, subject := "Hi", body_html := "<p>H</p>",
    body_text := none, status := .processing, retry_count := retryCount,
    max_retries := maxRetries, last_error := none, next_retry_at := none,
    sent_at := none, priority := 5, template_context := ctx }

/-- A raw database row whose `email_type` is outside the eight enumerated
values. -/
def c7UnknownTypeRow : RawEmailRow :=
  { id := 7, email_type := "marketing", recipient_email := "a@x.io",
    recipient_name := none, subject := "Hi", body_html := "<p>H</p>",
    body_text := none, status := "processing", retry_count := 0,
    max_retries := 3, last_error := none, next_retry_at := none,
    sent_at := none, priority := 5, template_context := none }

/-! ## Helper lemmas -/

/-- A row whose validation fails makes the whole conversion loop of
`get_pending_emails` fail. -/
theorem parseRows_error_of_mem {row : RawEmailRow} {rows : List RawEmailRow}
    {e : String} (hmem : row ∈ rows) (herr : parseEmailRecord row = .error e) :
    ∃ msg, parseRows rows = .error msg := by
  induction rows with
  | nil => cases hmem
  | cons r rs ih =>
    rcases List.mem_cons.mp hmem with h | h
    · subst h
      exact ⟨e, by simp [parseRows, herr]⟩
    · cases hr : parseEmailRecord r with
      | error e2 => exact ⟨e2, by simp [parseRows, hr]⟩
      | ok rec =>
        obtain ⟨msg, hmsg⟩ := ih h
        exact ⟨msg, by simp [parseRows, hr, hmsg]⟩

/-- Validation rejects any row whose `email_type` is not one of the eight
enumerated values. -/
theorem parseEmailRecord_unknown_type {row : RawEmailRow}
    (h : emailTypeOfString row.email_type = none) :
    parseEmailRecord row
      = .error ("validation error for EmailRecord: email_type " ++ row.email_type) := by
  unfold parseEmailRecord
  rw [h]

/-- The successful conversion loop preserves the row count. -/
theorem parseRows_length {rows : List RawEmailRow} {recs : List EmailRecord}
    (h : parseRows rows = .ok recs) : recs.length = rows.length := by
  induction rows generalizing recs with
  | nil =>
    simp [parseRows] at h
    subst h
    rfl
  | cons r rs ih =>
    unfold parseRows at h
    cases hr : parseEmailRecord r with
    | error e => rw [hr] at h; cases h
    | ok rec =>
      rw [hr] at h
      cases hrs : parseRows rs with
      | error e => rw [hrs] at h; cases h
      | ok recs2 =>
        rw [hrs] at h
        cases h
        simp [ih hrs]

/-- A string that is not one of the eight email types is not a key of
`TEMPLATE_TYPE_MAP`. -/
theorem template_type_map_lookup_none {s : String}
    (h : emailTypeOfString s = none) : template_type_map.lookup s = none := by
  have h1 : s ≠ "otp_verification" := by
    intro hs; rw [hs] at h; exact absurd h (by decide)
  have h2 : s ≠ "booking_created" := by
    intro hs; rw [hs] at h; exact absurd h (by decide)
  have h3 : s ≠ "booking_cancelled" := by
    intro hs; rw [hs] at h; exact absurd h (by decide)
  have h4 : s ≠ "booking_rescheduled" := by
    intro hs; rw [hs] at h; exact absurd h (by decide)
  have h5 : s ≠ "reminder_24h" := by
    intro hs; rw [hs] at h; exact absurd h (by decide)
  have h6 : s ≠ "reminder_1h" := by
    intro hs; rw [hs] at h; exact absurd h (by decide)
  have e1 : (s == "otp_verification") = false := beq_eq_false_iff_ne.mpr h1
  have e2 : (s == "booking_created") = false := beq_eq_false_iff_ne.mpr h2
  have e3 : (s == "booking_cancelled") = false := beq_eq_false_iff_ne.mpr h3
  have e4 : (s == "booking_rescheduled") = false := beq_eq_false_iff_ne.mpr h4
  have e5 : (s == "reminder_24h") = false := beq_eq_false_iff_ne.mpr h5
  have e6 : (s == "reminder_1h") = false := beq_eq_false_iff_ne.mpr h6
  simp [template_type_map, List.lookup, e1, e2, e3, e4, e5, e6]

/-! ## Claim C1 — worker retry decision on send failure -/

/-- C1 (counterexample): the claim predicts a scheduled retry for a row at
`retry_count = max_retries` whose failure is explicitly transient
(`"Connection refused"` is classified transient), but `_handle_send_failure`
marks the row failed and increments the failed counter: transience never
reaches the decision. -/
theorem c1_counterexample :
    (sampleEmail 3 3 none).retry_count = (sampleEmail 3 3 none).max_retries ∧
    is_transient_error "Connection refused" = true ∧
    (handle_send_failure (sampleEmail 3 3 none) "Connection refused" 300 {}).fst
      = .markFailed "Connection refused" ∧
    (handle_send_failure (sampleEmail 3 3 none) "Connection refused" 300 {}).snd.failed = 1 := by
  refine ⟨rfl, by decide, rfl, rfl⟩

/-- C1 (amended): on a send failure the worker schedules a retry (incrementing
the retried counter) exactly when `retry_count < max_retries`, and otherwise
marks the row failed (incrementing the failed counter); the transience of the
error plays no role in the decision. -/
theorem c1_retry_policy (email : EmailRecord) (error : String) (b : Nat)
    (c : WorkerCounters) :
    ((handle_send_failure email error b c).fst = .scheduleRetry error b
        ↔ email.retry_count < email.max_retries) ∧
    ((handle_send_failure email error b c).fst = .markFailed error
        ↔ email.max_retries ≤ email.retry_count) ∧
    (email.retry_count < email.max_retries →
      (handle_send_failure email error b c).snd
        = { c with retried := c.retried + 1 }) ∧
    (email.max_retries ≤ email.retry_count →
      (handle_send_failure email error b c).snd
        = { c with failed := c.failed + 1 }) := by
  unfold handle_send_failure
  by_cases h : email.retry_count < email.max_retries
  · rw [if_pos h]
    refine ⟨⟨fun _ => h, fun _ => rfl⟩,
            ⟨fun he => FailureAction.noConfusion he,
             fun h2 => absurd h (Nat.not_lt.mpr h2)⟩,
            fun _ => rfl,
            fun h2 => absurd h (Nat.not_lt.mpr h2)⟩
  · rw [if_neg h]
    refine ⟨⟨fun he => FailureAction.noConfusion he, fun h2 => absurd h2 h⟩,
            ⟨fun _ => Nat.not_lt.mp h, fun _ => rfl⟩,
            fun h2 => absurd h2 h,
            fun _ => rfl⟩

/-- C1 (witness): a row at the retry limit is marked failed and the failed
counter is incremented. -/
theorem c1_retry_policy_witness :
    (sampleEmail 3 3 none).max_retries ≤ (sampleEmail 3 3 none).retry_count ∧
    (handle_send_failure (sampleEmail 3 3 none) "boom" 300 {}).snd
      = { processed := 0, retried := 0, failed := 1 } :=
  ⟨by decide, (c1_retry_policy (sampleEmail 3 3 none) "boom" 300 {}).2.2.2 (by decide)⟩

/-! ## Claim C2 — API key authentication -/

/-- C2: when the configured API key is non-empty, `verify_api_key` rejects a
request with no `X-API-Key` header with 401 `API key required`, rejects a
non-matching key with 401 `Invalid API key`, and accepts exactly the requests
presenting the matching key. -/
theorem c2_api_key_auth (ck : String) (hck : ck ≠ "") :
    verify_api_key (some ck) none = .unauthorized 401 "API key required" ∧
    (∀ k, k ≠ "" → k ≠ ck →
      verify_api_key (some ck) (some k) = .unauthorized 401 "Invalid API key") ∧
    (∀ k, verify_api_key (some ck) k = .ok ↔ k = some ck) := by
  refine ⟨by simp [verify_api_key, hck], ?_, ?_⟩
  · intro k hk hne
    simp [verify_api_key, hck, hk, hne]
  · intro k
    match k with
    | none => simp [verify_api_key, hck]
    | some k2 =>
      by_cases h1 : k2 = ""
      · subst h1
        simp [verify_api_key, hck, Ne.symm hck]
      · by_cases h2 : k2 = ck
        · subst h2
          simp [verify_api_key, hck, h1]
        · simp [verify_api_key, hck, h1, h2]

/-- C2 (witness): with configured key `secret`, a missing key and a wrong key
are rejected with the two fixed messages and the matching key is accepted. -/
theorem c2_api_key_auth_witness :
    ("secret" : String) ≠ "" ∧
    verify_api_key (some "secret") none = .unauthorized 401 "API key required" ∧
    verify_api_key (some "secret") (some "wrong")
      = .unauthorized 401 "Invalid API key" ∧
    verify_api_key (some "secret") (some "secret") = .ok :=
  ⟨by decide,
   (c2_api_key_auth "secret" (by decide)).1,
   (c2_api_key_auth "secret" (by decide)).2.1 "wrong" (by decide) (by decide),
   ((c2_api_key_auth "secret" (by decide)).2.2 (some "secret")).mpr rfl⟩

/-! ## Claim C4 — template failures and the retry policy -/

/-- C4 (counterexample): a row with `retry_count = 0 < max_retries = 3` whose
template rendering fails is given to `schedule_retry`, not `mark_failed`: the
template failure is caught by the generic handler of `_process_email` and is
not treated as permanent. -/
theorem c4_counterexample :
    ctxTruthy (sampleEmail 0 3 (some [("customer_name", "Ana")])).template_context
      = true ∧
    (process_email (sampleEmail 0 3 (some [("customer_name", "Ana")]))
        (.error "Template not found: transactional.html") .ok 300 {}).fst
      = .finalized (.scheduleRetry "Template not found: transactional.html" 300) := by
  exact ⟨rfl, rfl⟩

/-- C4 (amended): a template-rendering failure is handled by the same policy
as a send failure (`_handle_send_failure`): the row is retried when
`retry_count < max_retries` and only marked failed once the retry budget is
exhausted; it is not unconditionally finalized with `mark_failed`. -/
theorem c4_template_failure_policy (email : EmailRecord) (msg : String)
    (send : SendResult) (b : Nat) (c : WorkerCounters)
    (hctx : ctxTruthy email.template_context = true) :
    process_email email (.error msg) send b c
      = (.finalized (handle_send_failure email msg b c).fst,
         (handle_send_failure email msg b c).snd) ∧
    (email.retry_count < email.max_retries →
      (process_email email (.error msg) send b c).fst
        = .finalized (.scheduleRetry msg b)) ∧
    (email.max_retries ≤ email.retry_count →
      (process_email email (.error msg) send b c).fst
        = .finalized (.markFailed msg)) := by
  have hmain : process_email email (.error msg) send b c
      = (.finalized (handle_send_failure email msg b c).fst,
         (handle_send_failure email msg b c).snd) := by
    unfold process_email prepare_email_content
    rw [if_pos hctx]
  refine ⟨hmain, ?_, ?_⟩
  · intro h
    rw [hmain]
    unfold handle_send_failure
    rw [if_pos h]
  · intro h
    rw [hmain]
    unfold handle_send_failure
    rw [if_neg (by omega)]

/-- C4 (witness): a fresh row (`retry_count = 0`, `max_retries = 3`) with a
failing template render is scheduled for retry. -/
theorem c4_template_failure_policy_witness :
    ctxTruthy (sampleEmail 0 3 (some [("customer_name", "Ana")])).template_context
      = true ∧
    (sampleEmail 0 3 (some [("customer_name", "Ana")])).retry_count
      < (sampleEmail 0 3 (some [("customer_name", "Ana")])).max_retries ∧
    (process_email (sampleEmail 0 3 (some [("customer_name", "Ana")]))
        (.error "boom") .ok 300 {}).fst = .finalized (.scheduleRetry "boom" 300) :=
  ⟨rfl, by decide,
   (c4_template_failure_policy (sampleEmail 0 3 (some [("customer_name", "Ana")]))
      "boom" .ok 300 {} rfl).2.1 (by decide)⟩

/-! ## Claim C5 — transient error classification -/

/-- C5: an SMTP error text is classified transient exactly when its lowercased
form contains at least one of the nine keywords as a substring; texts
containing none of them are classified non-transient. -/
theorem c5_transient_classification (s : String) :
    is_transient_error s = true ↔
      ("timeout".toList <:+: (pyLower s).toList ∨
       "connection".toList <:+: (pyLower s).toList ∨
       "temporarily".toList <:+: (pyLower s).toList ∨
       "try again".toList <:+: (pyLower s).toList ∨
       "unavailable".toList <:+: (pyLower s).toList ∨
       "service".toList <:+: (pyLower s).toList ∨
       "refused".toList <:+: (pyLower s).toList ∨
       "reset".toList <:+: (pyLower s).toList ∨
       "broken pipe".toList <:+: (pyLower s).toList) := by
  simp [is_transient_error, transient_keywords, containsSubstring,
        List.any_eq_true]

/-! ## Claim C6 — health endpoint status -/

/-- C6 (counterexample): with a healthy queue store but an ill-formed SMTP
configuration the health endpoint still reports `ok` with HTTP 200 (only
`email_provider` degrades to `not_configured`), contradicting the claim that
both probes must succeed for `ok`. -/
theorem c6_counterexample :
    (health_check true false).status = "ok" ∧
    (health_check true false).httpStatus = 200 ∧
    (health_check true false).email_provider = "not_configured" :=
  ⟨rfl, rfl, rfl⟩

/-- C6 (amended): the health endpoint reports `ok` (HTTP 200) exactly when the
queue store's health probe succeeds and `degraded` (HTTP 503) exactly when it
fails; the SMTP configuration affects only the `email_provider` field. -/
theorem c6_health_status (dbOk smtpConfigOk : Bool) :
    ((health_check dbOk smtpConfigOk).status = "ok" ↔ dbOk = true) ∧
    ((health_check dbOk smtpConfigOk).status = "degraded" ↔ dbOk = false) ∧
    ((health_check dbOk smtpConfigOk).httpStatus = 503 ↔ dbOk = false) ∧
    ((health_check dbOk smtpConfigOk).httpStatus = 200 ↔ dbOk = true) ∧
    (health_check dbOk smtpConfigOk).email_provider
      = (if smtpConfigOk then "ok" else "not_configured") := by
  cases dbOk <;> cases smtpConfigOk <;> decide

/-! ## Claim C7 — unknown email types -/

/-- C7 (counterexample): a leased row whose `type` is `marketing` (outside the
eight enumerated values) fails pydantic validation, so `get_pending_emails`
raises instead of coercing the row to `transactional` and processing it. -/
theorem c7_counterexample :
    emailTypeOfString "marketing" = none ∧
    get_pending_emails (fun _ => [c7UnknownTypeRow]) 50
      = .error "validation error for EmailRecord: email_type marketing" :=
  ⟨rfl, rfl⟩

/-- C7 (amended): unknown type strings are coerced to `transactional` only on
the ingress path (`TEMPLATE_TYPE_MAP` lookup) and in the worker's
content-preparation coercion; a stored row whose `type` is outside the eight
enumerated values fails `EmailRecord` validation, so leasing a batch
containing it raises `EmailQueueError` rather than processing the row. -/
theorem c7_unknown_type_handling (s : String)
    (hs : emailTypeOfString s = none) :
    (∀ row rows, row ∈ rows → row.email_type = s →
       ∃ msg, parseRows rows = .error msg) ∧
    coerce_email_type s = .transactional ∧
    email_type_for_template_id (some s) = .transactional := by
  refine ⟨?_, ?_, ?_⟩
  · intro row rows hmem htype
    exact parseRows_error_of_mem hmem
      (parseEmailRecord_unknown_type (htype ▸ hs))
  · simp [coerce_email_type, hs]
  · by_cases hempty : s = ""
    · simp [email_type_for_template_id, hempty]
    · simp [email_type_for_template_id, hempty,
        template_type_map_lookup_none hs]

/-- C7 (witness): the `marketing` row fails to lease while both coercion
paths map `marketing` to `transactional`. -/
theorem c7_unknown_type_handling_witness :
    emailTypeOfString "marketing" = none ∧
    (∃ msg, parseRows [c7UnknownTypeRow] = .error msg) ∧
    coerce_email_type "marketing" = .transactional :=
  ⟨rfl,
   (c7_unknown_type_handling "marketing" rfl).1 c7UnknownTypeRow
     [c7UnknownTypeRow] (List.mem_singleton.mpr rfl) rfl,
   (c7_unknown_type_handling "marketing" rfl).2.1⟩

/-! ## Claim C8 — error truncation in mark_failed -/

/-- C8: for every error string handed to the `mark_failed` path
(`update_email_status` with status `failed`), the stored `last_error` is the
error truncated to at most 500 characters (and short errors are stored
verbatim). -/
theorem c8_mark_failed_truncation (row : EmailRecord) (error : String) :
    (mark_failed row error).status = .failed ∧
    (mark_failed row error).last_error = some (truncate500 error) ∧
    (truncate500 error).length ≤ 500 ∧
    (error.length ≤ 500 → truncate500 error = error) := by
  refine ⟨rfl, rfl, ?_, ?_⟩
  · exact List.length_take_le 500 error.data
  · intro h
    simp only [truncate500]
    rw [List.take_of_length_le h]

/-- C8 (witness): a short error message is stored verbatim by `mark_failed`. -/
theorem c8_mark_failed_truncation_witness :
    ("boom" : String).length ≤ 500 ∧
    (mark_failed (sampleEmail 3 3 none) "boom").last_error = some "boom" := by
  refine ⟨by decide, ?_⟩
  have h := c8_mark_failed_truncation (sampleEmail 3 3 none) "boom"
  rw [h.2.1, h.2.2.2 (by decide)]

/-! ## Claim C9 — client message id round-trip -/

/-- C9 (counterexample): a request supplying the empty string as
`client_message_id` is accepted, yet the response carries the generated UUID
rather than the supplied value, because Python `or` treats the empty string as
absent. -/
theorem c9_counterexample :
    message_id_for (some "") "b5e7c1f2-0000-4000-8000-000000000000"
      = "b5e7c1f2-0000-4000-8000-000000000000" ∧
    ("" : String) ≠ "b5e7c1f2-0000-4000-8000-000000000000" :=
  ⟨rfl, by decide⟩

/-- C9 (amended): for every accepted request supplying a non-empty
`client_message_id` X the response's `message_id` equals X; when
`client_message_id` is absent or empty, the generated UUID is used. -/
theorem c9_message_id (x uuid : String) :
    (x ≠ "" → message_id_for (some x) uuid = x) ∧
    message_id_for none uuid = uuid ∧
    message_id_for (some "") uuid = uuid := by
  refine ⟨?_, rfl, rfl⟩
  intro hx
  simp [message_id_for, hx]

/-- C9 (witness): a non-empty client message id round-trips. -/
theorem c9_message_id_witness :
    ("client-42" : String) ≠ "" ∧
    message_id_for (some "client-42") "u-1" = "client-42" :=
  ⟨by decide, (c9_message_id "client-42" "u-1").1 (by decide)⟩

/-! ## Claim C10 — limit clamping in get_pending_emails -/

/-- C10: `get_pending_emails` clamps the row count requested from the store to
`[1, 1000]`; a zero or negative limit requests exactly one row, and whenever
the store honours the requested bound the call returns at most 1000 records. -/
theorem c10_limit_clamp (store : Int → List RawEmailRow) (limit : Int) :
    1 ≤ clampLimit limit ∧ clampLimit limit ≤ 1000 ∧
    (limit ≤ 0 → clampLimit limit = 1) ∧
    get_pending_emails store limit = parseRows (store (clampLimit limit)) ∧
    (∀ recs, ((store (clampLimit limit)).length : Int) ≤ clampLimit limit →
      get_pending_emails store limit = .ok recs → (recs.length : Int) ≤ 1000) := by
  refine ⟨?_, ?_, ?_, rfl, ?_⟩
  · unfold clampLimit
    omega
  · unfold clampLimit
    omega
  · intro h
    unfold clampLimit
    omega
  · intro recs hstore hok
    have hlen : recs.length = (store (clampLimit limit)).length :=
      parseRows_length hok
    have hcl : clampLimit limit ≤ 1000 := by unfold clampLimit; omega
    rw [hlen]
    exact le_trans hstore hcl

/-- C10 (witness): a negative limit still requests exactly one row and the
empty store yields at most 1000 records. -/
theorem c10_limit_clamp_witness :
    clampLimit (-5) = 1 ∧ ((([] : List EmailRecord)).length : Int) ≤ 1000 :=
  ⟨(c10_limit_clamp (fun _ => []) (-5)).2.2.1 (by decide),
   (c10_limit_clamp (fun _ => []) (-5)).2.2.2.2 [] (by decide) rfl⟩

/-! ## Rate limiter lemmas (towards claim C3) -/

/-- Unfolding of `acceptedTimes` on a request. -/
theorem acceptedTimes_cons (rl : RateLimiter) (t : ℚ) (ts : List ℚ) :
    acceptedTimes rl (t :: ts) =
      (if (is_allowed rl t).fst
       then t :: acceptedTimes (is_allowed rl t).snd ts
       else acceptedTimes (is_allowed rl t).snd ts) := rfl

/-- When either budget is already full, `is_allowed` refuses the request and
only cleans the timestamp list. -/
theorem is_allowed_false {rpm rps : Nat} {reqs : List ℚ} {t : ℚ}
    (h : rps ≤ ((reqs.filter (fun v => decide (t - v < 60))).filter
          (fun v => decide (t - v < 1))).length ∨
         rpm ≤ (reqs.filter (fun v => decide (t - v < 60))).length) :
    is_allowed ⟨rpm, rps, reqs⟩ t
      = (false, ⟨rpm, rps, reqs.filter (fun v => decide (t - v < 60))⟩) := by
  unfold is_allowed cleanOldRequests
  rcases h with h | h
  · rw [if_pos h]
  · by_cases h2 : rps ≤ ((reqs.filter (fun v => decide (t - v < 60))).filter
        (fun v => decide (t - v < 1))).length
    · rw [if_pos h2]
    · rw [if_neg h2, if_pos h]

/-- When both budgets have room, `is_allowed` accepts and records the
request. -/
theorem is_allowed_true {rpm rps : Nat} {reqs : List ℚ} {t : ℚ}
    (h1 : ((reqs.filter (fun v => decide (t - v < 60))).filter
        (fun v => decide (t - v < 1))).length < rps)
    (h2 : (reqs.filter (fun v => decide (t - v < 60))).length < rpm) :
    is_allowed ⟨rpm, rps, reqs⟩ t
      = (true, ⟨rpm, rps, reqs.filter (fun v => decide (t - v < 60)) ++ [t]⟩) := by
  unfold is_allowed cleanOldRequests
  rw [if_neg (Nat.not_le.mpr h1), if_neg (Nat.not_le.mpr h2)]

/-- Re-filtering through a later window cutoff collapses to the later
cutoff. -/
theorem filter_window_collapse {hist : List ℚ} {last t w : ℚ} (hle : last ≤ t) :
    (hist.filter (fun v => decide (last - v < w))).filter
        (fun v => decide (t - v < w))
      = hist.filter (fun v => decide (t - v < w)) := by
  rw [List.filter_filter]
  apply List.filter_congr
  intro v _
  by_cases hv : t - v < w
  · have hv2 : last - v < w := lt_of_le_of_lt (by linarith) hv
    simp [hv, hv2]
  · simp [hv]

/-- The one-second filter of the cleaned list equals the one-second filter of
the raw list. -/
theorem filter_second_collapse {hist : List ℚ} {t : ℚ} :
    (hist.filter (fun v => decide (t - v < 60))).filter
        (fun v => decide (t - v < 1))
      = hist.filter (fun v => decide (t - v < 1)) := by
  rw [List.filter_filter]
  apply List.filter_congr
  intro v _
  by_cases hv : t - v < 1
  · have hv2 : t - v < 60 := by linarith
    simp [hv, hv2]
  · simp [hv]

/-- A decomposition of `A ++ [u]` as `pre ++ x :: post`: either `x` is the
appended element, or the split lies inside `A`. -/
theorem append_singleton_split {α : Type} {A pre post : List α} {u x : α}
    (h : A ++ [u] = pre ++ x :: post) :
    (pre = A ∧ x = u ∧ post = []) ∨
    (∃ B, A = pre ++ x :: B ∧ post = B ++ [u]) := by
  cases post using List.reverseRecOn with
  | nil =>
    obtain ⟨hA, hu⟩ := List.append_inj' h rfl
    left
    refine ⟨hA.symm, ?_, rfl⟩
    injection hu with h1 _
    exact h1.symm
  | append_singleton B b =>
    rw [show pre ++ x :: (B ++ [b]) = (pre ++ x :: B) ++ [b] by simp] at h
    obtain ⟨hA, hu⟩ := List.append_inj' h rfl
    right
    refine ⟨B, hA, ?_⟩
    injection hu with h1 _
    rw [h1]

/-- `splitBound` extends through an accepted element whose own window count is
within the budget. -/
theorem splitBound_append_singleton {b : Nat} {w : ℚ} {A : List ℚ} {t : ℚ}
    (hA : splitBound b w A)
    (ht : (A.filter (fun v => decide (t - v < w))).length < b) :
    splitBound b w (A ++ [t]) := by
  intro pre u post h
  rcases append_singleton_split h with ⟨hpre, hu, _⟩ | ⟨B, hAB, _⟩
  · subst hpre
    subst hu
    exact ht
  · exact hA pre u B hAB

/-- Run invariant for `acceptedTimes`: starting from a state whose timestamp
list is the accepted history filtered through the last seen time, the full
accepted list stays chronological and satisfies both `splitBound`s. -/
theorem acceptedTimes_invariant (rpm rps : Nat) (times : List ℚ) :
    ∀ (hist : List ℚ) (last : ℚ),
      times.Pairwise (· ≤ ·) →
      (∀ t2 ∈ times, last ≤ t2) →
      (∀ v ∈ hist, v ≤ last) →
      hist.Pairwise (· ≤ ·) →
      splitBound rpm 60 hist →
      splitBound rps 1 hist →
      ((hist ++ acceptedTimes
          ⟨rpm, rps, hist.filter (fun v => decide (last - v < 60))⟩
          times).Pairwise (· ≤ ·) ∧
       splitBound rpm 60 (hist ++ acceptedTimes
          ⟨rpm, rps, hist.filter (fun v => decide (last - v < 60))⟩ times) ∧
       splitBound rps 1 (hist ++ acceptedTimes
          ⟨rpm, rps, hist.filter (fun v => decide (last - v < 60))⟩ times)) := by
  induction times with
  | nil =>
    intro hist last _ _ _ hs h60 h1
    simpa [acceptedTimes] using ⟨hs, h60, h1⟩
  | cons t ts ih =>
    intro hist last hsorted hlb hh hs h60 h1
    have hlt : last ≤ t := hlb t (List.mem_cons_self t ts)
    have hts_sorted : ts.Pairwise (· ≤ ·) := (List.pairwise_cons.mp hsorted).2
    have ht_ts : ∀ t2 ∈ ts, t ≤ t2 := (List.pairwise_cons.mp hsorted).1
    have hcollapse :
        (hist.filter (fun v => decide (last - v < 60))).filter
            (fun v => decide (t - v < 60))
          = hist.filter (fun v => decide (t - v < 60)) :=
      filter_window_collapse hlt
    by_cases hacc : ((hist.filter (fun v => decide (t - v < 60))).filter
          (fun v => decide (t - v < 1))).length < rps ∧
        (hist.filter (fun v => decide (t - v < 60))).length < rpm
    · -- the request is accepted and recorded
      have hsec : (hist.filter (fun v => decide (t - v < 1))).length < rps := by
        have h := hacc.1
        rwa [filter_second_collapse] at h
      have hstep := @is_allowed_true rpm rps
        (hist.filter (fun v => decide (last - v < 60))) t
        (by rw [hcollapse]; exact hacc.1)
        (by rw [hcollapse]; exact hacc.2)
      rw [acceptedTimes_cons, hstep]
      simp only
      rw [hcollapse]
      have hreq : (hist ++ [t]).filter (fun v => decide (t - v < 60))
          = hist.filter (fun v => decide (t - v < 60)) ++ [t] := by
        rw [List.filter_append]
        have hd : (decide (t - t < (60:ℚ))) = true := by
          simp
        simp [hd]
      have hmem : ∀ v ∈ hist ++ [t], v ≤ t := by
        intro v hv
        rcases List.mem_append.mp hv with hv | hv
        · exact le_trans (hh v hv) hlt
        · rw [List.mem_singleton.mp hv]
      have hpw : (hist ++ [t]).Pairwise (· ≤ ·) := by
        rw [List.pairwise_append]
        exact ⟨hs, List.pairwise_singleton _ _,
          fun a ha b hb => by
            rw [List.mem_singleton.mp hb]
            exact le_trans (hh a ha) hlt⟩
      have h60' : splitBound rpm 60 (hist ++ [t]) :=
        splitBound_append_singleton h60 hacc.2
      have h1' : splitBound rps 1 (hist ++ [t]) :=
        splitBound_append_singleton h1 hsec
      have := ih (hist ++ [t]) t hts_sorted ht_ts hmem hpw h60' h1'
      rw [hreq] at this
      simpa [List.append_assoc] using this
    · -- the request is refused; the state is cleaned only
      have hstep := @is_allowed_false rpm rps
        (hist.filter (fun v => decide (last - v < 60))) t
        (by rw [hcollapse]
            by_cases h1c : ((hist.filter (fun v => decide (t - v < 60))).filter
                (fun v => decide (t - v < 1))).length < rps
            · exact Or.inr (Nat.le_of_not_lt (fun h2c => hacc ⟨h1c, h2c⟩))
            · exact Or.inl (Nat.le_of_not_lt h1c))
      rw [acceptedTimes_cons, hstep]
      simp only
      rw [hcollapse]
      exact ih hist t hts_sorted ht_ts (fun v hv => le_trans (hh v hv) hlt)
        hs h60 h1

/-- Any window of length `width` over a chronological list satisfying
`splitBound` contains at most `bound` elements. -/
theorem window_bound {b : Nat} {width : ℚ} {A : List ℚ}
    (hA : A.Pairwise (· ≤ ·)) (hsplit : splitBound b width A) (w : ℚ) :
    (A.filter (fun v => decide (w ≤ v ∧ v < w + width))).length ≤ b := by
  induction A using List.reverseRecOn with
  | nil => simp
  | append_singleton B x ih =>
    have hp := List.pairwise_append.mp hA
    have hB : B.Pairwise (· ≤ ·) := hp.1
    have hle : ∀ v ∈ B, v ≤ x :=
      fun v hv => hp.2.2 v hv x (List.mem_singleton.mpr rfl)
    have hsB : splitBound b width B := by
      intro pre u post h
      exact hsplit pre u (post ++ [x]) (by rw [h]; simp)
    rw [List.filter_append]
    by_cases hx : w ≤ x ∧ x < w + width
    · have hxl : (List.filter (fun v => decide (w ≤ v ∧ v < w + width)) [x])
          = [x] := by simp [hx]
      have hcount : (B.filter (fun v => decide (x - v < width))).length < b :=
        hsplit B x [] rfl
      have hcongr : B.filter (fun v => decide (w ≤ v ∧ v < w + width))
          = B.filter (fun v =>
              decide (w ≤ v ∧ v < w + width) && decide (v ≤ x)) := by
        apply List.filter_congr
        intro v hv
        simp [hle v hv]
      have hsub : List.Sublist
          (B.filter (fun v =>
            decide (w ≤ v ∧ v < w + width) && decide (v ≤ x)))
          (B.filter (fun v => decide (x - v < width))) := by
        apply List.monotone_filter_right
        intro a ha
        simp only [Bool.and_eq_true, decide_eq_true_eq] at ha
        simp only [decide_eq_true_eq]
        rcases ha with ⟨⟨hwa, _⟩, hax⟩
        have := hx.2
        linarith
      have hlen : (B.filter (fun v => decide (w ≤ v ∧ v < w + width))).length
          ≤ (B.filter (fun v => decide (x - v < width))).length := by
        rw [hcongr]
        exact hsub.length_le
      rw [hxl]
      simp only [List.length_append, List.length_singleton]
      omega
    · have hxl : (List.filter (fun v => decide (w ≤ v ∧ v < w + width)) [x])
          = [] := by simp [hx]
      rw [hxl, List.append_nil]
      exact ih hB hsB

/-! ## Claim C3 — rate limiter window bounds and health exemption -/

/-- C3: feeding any chronological request sequence of one client through the
limiter, every 60-second window contains at most `requests_per_minute`
accepted requests and every 1-second window at most `requests_per_second`;
requests to the health endpoint bypass the limiter: they are always allowed
and leave its state untouched. -/
theorem c3_rate_limiter (rpm rps : Nat) (times : List ℚ)
    (hchrono : times.Pairwise (· ≤ ·)) (w : ℚ) :
    ((acceptedTimes ⟨rpm, rps, []⟩ times).filter
        (fun v => decide (w ≤ v ∧ v < w + 60))).length ≤ rpm ∧
    ((acceptedTimes ⟨rpm, rps, []⟩ times).filter
        (fun v => decide (w ≤ v ∧ v < w + 1))).length ≤ rps ∧
    (∀ rl now, check_rate_limit "/health" rl now = (.allowed, rl)) := by
  have hhealth : ∀ (rl : RateLimiter) (now : ℚ),
      check_rate_limit "/health" rl now = (.allowed, rl) := by
    intro rl now
    unfold check_rate_limit
    rw [if_pos rfl]
  cases times with
  | nil =>
    refine ⟨by simp [acceptedTimes], by simp [acceptedTimes], hhealth⟩
  | cons t ts =>
    have hlb : ∀ t2 ∈ t :: ts, t ≤ t2 := by
      intro t2 ht2
      rcases List.mem_cons.mp ht2 with h | h
      · rw [h]
      · exact (List.pairwise_cons.mp hchrono).1 t2 h
    have hinv := acceptedTimes_invariant rpm rps (t :: ts) [] t hchrono hlb
      (by intro v hv; cases hv) (List.Pairwise.nil)
      (by intro pre u post h; cases (List.append_ne_nil_of_right_ne_nil pre
            (List.cons_ne_nil u post)) h.symm)
      (by intro pre u post h; cases (List.append_ne_nil_of_right_ne_nil pre
            (List.cons_ne_nil u post)) h.symm)
    simp only [List.filter_nil, List.nil_append] at hinv
    exact ⟨window_bound hinv.1 hinv.2.1 w, window_bound hinv.1 hinv.2.2 w,
      hhealth⟩

/-- C3 (witness): three chronological requests with budgets `rpm = 2`,
`rps = 1` respect both window bounds, and a health request passes through. -/
theorem c3_rate_limiter_witness :
    ([(0:ℚ), 1, 30].Pairwise (· ≤ ·)) ∧
    ((acceptedTimes ⟨2, 1, []⟩ [(0:ℚ), 1, 30]).filter
        (fun v => decide ((0:ℚ) ≤ v ∧ v < 0 + 60))).length ≤ 2 ∧
    ((acceptedTimes ⟨2, 1, []⟩ [(0:ℚ), 1, 30]).filter
        (fun v => decide ((0:ℚ) ≤ v ∧ v < 0 + 1))).length ≤ 1 ∧
    check_rate_limit "/health" ⟨2, 1, []⟩ 5 = (.allowed, ⟨2, 1, []⟩) := by
  have h := c3_rate_limiter 2 1 [(0:ℚ), 1, 30] (by decide) 0
  exact ⟨by decide, h.1, h.2.1, h.2.2 ⟨2, 1, []⟩ 5⟩

end EmailService
